import Mathlib

/-!
Verification development for the Turing SDK tutorial notebooks
(`rpc-client-python`): a Django ORM integration notebook defining a
`QuizQuestion` model and a `grade_short_answer_view` handler, and a
rubric/question notebook documenting the SDK's `Rubric`,
`RubricType`, `Objective` and `ShortAnswerQuestion` surface.

The SDK itself is not part of the repository; every definition that
stands for SDK behaviour carries a doc comment starting with
"Modelled from the spec:" and follows the documented construction
surface and the printed results shown in the notebooks.  The
repository's own code (the model class, the pattern-match dispatches
and the view) is embedded faithfully, including its undefined-name
slips, which are represented through explicit attribute/name lookup
that can fail.
-/

/-- Python exception values that the embedded code can raise. -/
inductive PyErr where
  | NameError (n : String)
  | AttributeError (n : String)
  | ValueError (msg : String)
  | TypeError (msg : String)
  | DoesNotExist
  deriving DecidableEq

namespace Turing

/-- Modelled from the spec: the SDK's `Objective` enum of grading
dimensions (factual accuracy, use of evidence, analytical skills,
clarity, communication, application, comprehension), consumed by the
rubric/grading SDK.  The first four appear explicitly in the
notebooks. -/
inductive Objective where
  | FACTUAL
  | EVIDENCE
  | ANALYSIS
  | CLARITY
  | COMMUNICATION
  | APPLICATION
  | COMPREHENSION
  deriving DecidableEq

/-- Modelled from the spec: the SDK's `RubricType` enum of preset rubric
templates.  The notebooks name the presets both with and without the
`_RUBRIC` suffix (`RubricType.FACTUAL` next to `RubricType.FACTUAL_RUBRIC`,
`RubricType.CUSTOM` next to `RubricType.CUSTOM_RUBRIC`); the short names
are modelled as aliases of the suffixed members. -/
inductive RubricType where
  | FACTUAL_RUBRIC
  | ANALYTICAL_RUBRIC
  | COMMUNICATION_RUBRIC
  | COMPREHENSIVE_RUBRIC
  | APPLICATION_RUBRIC
  | CUSTOM_RUBRIC
  deriving DecidableEq

/-- Alias used interchangeably with `FACTUAL_RUBRIC` in the notebooks. -/
abbrev RubricType.FACTUAL : RubricType := RubricType.FACTUAL_RUBRIC

/-- Alias used interchangeably with `ANALYTICAL_RUBRIC` in the notebooks. -/
abbrev RubricType.ANALYTICAL : RubricType := RubricType.ANALYTICAL_RUBRIC

/-- Alias used interchangeably with `CUSTOM_RUBRIC` in the notebooks. -/
abbrev RubricType.CUSTOM : RubricType := RubricType.CUSTOM_RUBRIC

/-- Modelled from the spec: the predefined grading-criteria table of each
preset `RubricType`.  The factual preset is documented exactly (factual
understanding, use of evidence, clarity of writing, one point each) and
the analytical preset is documented to hold three criteria; the
remaining presets' contents are not disclosed and are modelled as fixed
representative tables.  A custom rubric carries no preset criteria. -/
def RubricType.presetCriteria : RubricType → List (Objective × ℚ)
  | .FACTUAL_RUBRIC => [(.FACTUAL, 1), (.EVIDENCE, 1), (.CLARITY, 1)]
  | .ANALYTICAL_RUBRIC => [(.ANALYSIS, 1), (.EVIDENCE, 1), (.CLARITY, 1)]
  | .COMMUNICATION_RUBRIC => [(.COMMUNICATION, 1), (.CLARITY, 1)]
  | .COMPREHENSIVE_RUBRIC =>
      [(.FACTUAL, 1), (.EVIDENCE, 1), (.ANALYSIS, 1), (.CLARITY, 1), (.COMPREHENSION, 1)]
  | .APPLICATION_RUBRIC => [(.APPLICATION, 1), (.CLARITY, 1)]
  | .CUSTOM_RUBRIC => []

/-- Modelled from the spec: the SDK `Rubric`: a criteria dictionary keyed
by `Objective` (modelled as an association list of objective/point-weight
pairs) together with the `rubric_type` classification tag. -/
structure Rubric where
  criteria : List (Objective × ℚ)
  rubric_type : RubricType
  deriving DecidableEq

/-- Modelled from the spec: `size` is the number of grading criteria
defined for the rubric (the size of the criteria dictionary). -/
def Rubric.size (r : Rubric) : Nat := r.criteria.length

/-- Modelled from the spec: `Rubric.empty()` creates a rubric with no
grading criteria; a rubric assembled ad hoc is classified
`RubricType.CUSTOM`. -/
def Rubric.empty : Rubric := ⟨[], RubricType.CUSTOM⟩

/-- Modelled from the spec: `add_criteria(objective, weight)` pairs the
objective with its point weight in the criteria dictionary (replacing the
entry when the objective is already a key) and leaves the classification
tag untouched. -/
def Rubric.add_criteria (r : Rubric) (o : Objective) (w : ℚ) : Rubric :=
  if (r.criteria.map Prod.fst).contains o then
    ⟨r.criteria.map (fun p => if p.1 = o then (o, w) else p), r.rubric_type⟩
  else
    ⟨r.criteria ++ [(o, w)], r.rubric_type⟩

/-- Modelled from the spec: `Rubric.from_rubric_type(t)` builds the preset
criteria table of `t` and records `t` itself as the rubric's
classification tag. -/
def Rubric.from_rubric_type (t : RubricType) : Rubric := ⟨t.presetCriteria, t⟩

/-- Modelled from the spec: the display names under which the default
`from_dict` payload serializes objectives, as shown in the notebook's
payload example. -/
def Objective.ofName : String → Option Objective
  | "factual understanding" => some .FACTUAL
  | "use of evidence" => some .EVIDENCE
  | "analytical skills" => some .ANALYSIS
  | "clarity of writing" => some .CLARITY
  | _ => none

/-- Modelled from the spec: the recursion behind the default
`Rubric.from_dict`, adding each serialized objective/point-weight pair to
an accumulating rubric and failing on an unrecognized objective name. -/
def Rubric.from_dict_aux : List (String × ℚ) → Rubric → Option Rubric
  | [], r => some r
  | kw :: rest, r =>
    match Objective.ofName kw.1 with
    | some o => Rubric.from_dict_aux rest (r.add_criteria o kw.2)
    | none => none

/-- Modelled from the spec: the default `Rubric.from_dict`, a rubric
factory that accepts serialized objective/point-weight pairs, starting
from the empty (custom) rubric. -/
def Rubric.from_dict (data : List (String × ℚ)) : Option Rubric :=
  Rubric.from_dict_aux data Rubric.empty

/-- Modelled from the spec: the SDK `ShortAnswerQuestion` with attributes
`body`, `example_answer` and `rubric`.  The construction surface passes
the first two under the keyword names `question` and `answer`
(`example_answer` in the ORM notebook's call). -/
structure ShortAnswerQuestion where
  body : String
  example_answer : String
  rubric : Rubric
  deriving DecidableEq

/-- Modelled from the spec: the constructor
`ShortAnswerQuestion(question, answer, rubric=None)`; when no rubric
argument is given, the rubric attribute is an empty `Rubric` object. -/
def ShortAnswerQuestion.make (question answer : String) (rubric : Option Rubric) :
    ShortAnswerQuestion :=
  ⟨question, answer, rubric.getD Rubric.empty⟩

/-- Modelled from the spec: `ShortAnswerQuestion.from_rubric_type`, the
wrapper for the `Rubric.from_rubric_type` class method.  It is defined
here directly on the preset table, so that its agreement with building
the rubric separately and passing it to the constructor is a theorem
rather than a definition. -/
def ShortAnswerQuestion.from_rubric_type (question answer : String) (t : RubricType) :
    ShortAnswerQuestion :=
  ⟨question, answer, ⟨t.presetCriteria, t⟩⟩

/-- Modelled from the spec: the question-level `add_criteria`, a wrapper
to the `add_criteria` method on the question's rubric object. -/
def ShortAnswerQuestion.add_criteria (q : ShortAnswerQuestion) (o : Objective) (w : ℚ) :
    ShortAnswerQuestion :=
  { q with rubric := q.rubric.add_criteria o w }

/-- Modelled from the spec: `set_rubric` replaces the question's rubric
with a separately built one. -/
def ShortAnswerQuestion.set_rubric (q : ShortAnswerQuestion) (r : Rubric) :
    ShortAnswerQuestion :=
  { q with rubric := r }

/-- A grading oracle standing for the SDK's LLM-backed
`ShortAnswerQuestion.grade(answer)`: its behaviour is not disclosed, so it
is an arbitrary function from the question object and the answer string to
a feedback/score pair or an exception. -/
abbrev GradeOracle := ShortAnswerQuestion → String → Except PyErr (String × ℚ)

/-- Embedded from the rubrics notebook: `CustomRubric.map_tag_to_objective`,
the static tag dispatch of the `CustomRubric` subclass; tags outside the
three listed cases raise `ValueError("Invalid Tag!")` at the wildcard. -/
def CustomRubric.map_tag_to_objective (tag : String) : Except PyErr Objective :=
  match tag with
  | "analytical" => .ok .ANALYSIS
  | "evidence" => .ok .EVIDENCE
  | "accuracy" => .ok .FACTUAL
  | _ => .error (.ValueError "Invalid Tag!")

/-- The tag dispatch of `CustomRubric.map_tag_to_objective` written as a
pure lookup table, in the sense of the spec's mapping-table reading of the
enum-driven match. -/
def tagObjectiveTable : List (String × Objective) :=
  [("analytical", .ANALYSIS), ("evidence", .EVIDENCE), ("accuracy", .FACTUAL)]

end Turing

open Turing

/-- Embedded from the ORM notebook: the stored fields of the
`QuizQuestion` model (a UUID primary key and three character fields). -/
structure QuizQuestion where
  _id : String
  question : String
  example_answer : String
  question_type : String
  deriving DecidableEq

/-- Embedded from the ORM notebook: the class attributes the
`QuizQuestion` class body defines are `FACTUAL = "FA"`, `OPTION = "OP"`
and `ANALYSIS = "AN"`.  Looking up any other attribute name — in
particular `OPINION`, which both `QUESTION_TYPE_CHOICES` and the match
statement refer to — raises `AttributeError`. -/
def QuizQuestion.classAttr : String → Except PyErr String
  | "FACTUAL" => .ok "FA"
  | "OPTION" => .ok "OP"
  | "ANALYSIS" => .ok "AN"
  | n => .error (.AttributeError n)

/-- Embedded from the ORM notebook: the `rubric_type` property.  The
match patterns are tried in order, each `case self.NAME` first looking up
the class attribute `NAME` and then comparing it with `question_type`.
`case self.FACTUAL` compares against "FA"; `case self.OPINION` looks up
an attribute the class does not define (it defines `OPTION`), so every
`question_type` other than "FA" raises before the wildcard is reached.
(The class body itself already refers to the undefined bare name
`OPINION` inside `QUESTION_TYPE_CHOICES`.) -/
def QuizQuestion.rubric_type (q : QuizQuestion) : Except PyErr RubricType := do
  let fa ← QuizQuestion.classAttr "FACTUAL"
  if q.question_type = fa then
    pure RubricType.FACTUAL
  else
    let op ← QuizQuestion.classAttr "OPINION"
    if q.question_type = op then
      pure RubricType.COMMUNICATION_RUBRIC
    else
      let an ← QuizQuestion.classAttr "ANALYSIS"
      if q.question_type = an then
        pure RubricType.ANALYTICAL_RUBRIC
      else
        pure RubricType.CUSTOM_RUBRIC

/-- Modelled from the spec: the dispatch the `rubric_type` property was
written to compute — the docstring says it converts the `question_type`
field to a `RubricType` — i.e. the same match with the `OPTION`/`OPINION`
slip repaired, an exhaustive mapping with a wildcard default. -/
def QuizQuestion.rubric_type_intended (q : QuizQuestion) : RubricType :=
  if q.question_type = "FA" then RubricType.FACTUAL
  else if q.question_type = "OP" then RubricType.COMMUNICATION_RUBRIC
  else if q.question_type = "AN" then RubricType.ANALYTICAL_RUBRIC
  else RubricType.CUSTOM_RUBRIC

/-- Embedded from the ORM notebook: the `turing_question` property,
building a `ShortAnswerQuestion` via `from_rubric_type` from the stored
`question` and `example_answer` fields and the `rubric_type` property
(whose evaluation can raise). -/
def QuizQuestion.turing_question (q : QuizQuestion) : Except PyErr ShortAnswerQuestion := do
  let t ← q.rubric_type
  pure (ShortAnswerQuestion.from_rubric_type q.question q.example_answer t)

/-- Embedded from the ORM notebook: the `grade` method, which unpacks the
feedback/score pair returned by `self.turing_question.grade(answer)` and
returns it. -/
def QuizQuestion.grade (sdk : GradeOracle) (q : QuizQuestion) (answer : String) :
    Except PyErr (String × ℚ) := do
  let saq ← q.turing_question
  let (feedback, score) ← sdk saq answer
  pure (feedback, score)

/-- Python values appearing in the view's response dictionary. -/
inductive Val where
  | str (s : String)
  | num (q : ℚ)
  deriving DecidableEq

/-- Django `HttpResponse` as used by the view: the content dictionary and
the status code. -/
structure HttpResponse where
  content : List (String × Val)
  status : Nat
  deriving DecidableEq

/-- Embedded from the ORM notebook: the module-level names the models
cells define.  The view's fetch refers to the name `Question`, which is
not among them — the model class is named `QuizQuestion`. -/
def modelGlobals : List String := ["QuizQuestion"]

/-- Resolution of a module-level name, raising `NameError` when the name
is not defined. -/
def resolveName (n : String) : Except PyErr Unit :=
  if modelGlobals.contains n then .ok () else .error (.NameError n)

/-- Django's `Model.objects.get(_id=...)`: returns the stored record or
raises `DoesNotExist`. -/
def ormGet (db : String → Option QuizQuestion) (qid : String) : Except PyErr QuizQuestion :=
  match db qid with
  | some q => .ok q
  | none => .error .DoesNotExist

/-- The view's `request.POST.get("answer")` followed by its use as the
answer string: a present parameter yields its value; an absent one yields
Python `None`, modelled as the `TypeError` its use as a string produces
downstream. -/
def extractAnswer (post : List (String × String)) : Except PyErr String :=
  match post.lookup "answer" with
  | some s => .ok s
  | none => .error (.TypeError "answer is None")

/-- Embedded from the ORM notebook: the straight-line body of
`grade_short_answer_view` up to and including the grading call — resolve
the name `Question`, fetch the record, extract the answer parameter,
grade the answer. -/
def view_core (sdk : GradeOracle) (db : String → Option QuizQuestion)
    (post : List (String × String)) (question_id : String) : Except PyErr (String × ℚ) := do
  let _ ← resolveName "Question"
  let question ← ormGet db question_id
  let students_answer ← extractAnswer post
  QuizQuestion.grade sdk question students_answer

/-- Embedded from the ORM notebook: `grade_short_answer_view`, which runs
the straight-line body and serializes the feedback/score pair into an
`HttpResponse` with status 200; it contains no handling of its own, so
any exception of the body propagates. -/
def grade_short_answer_view (sdk : GradeOracle) (db : String → Option QuizQuestion)
    (post : List (String × String)) (question_id : String) : Except PyErr HttpResponse :=
  (view_core sdk db post question_id).map
    (fun fs => ⟨[("feedback", Val.str fs.1), ("score", Val.num fs.2)], 200⟩)

/-- Modelled from the spec: the handler as the spec describes it — fetch
the record through the defined ORM question model, extract the single
request parameter, call the grading method and serialize the two results
— i.e. the view with the `Question` name slip repaired to the defined
`QuizQuestion` model. -/
def grade_short_answer_view_intended (sdk : GradeOracle) (db : String → Option QuizQuestion)
    (post : List (String × String)) (question_id : String) : Except PyErr HttpResponse := do
  let question ← ormGet db question_id
  let students_answer ← extractAnswer post
  let fs ← QuizQuestion.grade sdk question students_answer
  pure ⟨[("feedback", Val.str fs.1), ("score", Val.num fs.2)], 200⟩

/-- A concrete grading oracle used to evaluate the embedded code on
closed inputs. -/
def sdkExample : GradeOracle := fun _ _ => .ok ("Correct.", 1)

/-- A concrete one-row database used to evaluate the embedded code on
closed inputs. -/
def dbExample : String → Option QuizQuestion := fun qid =>
  if qid = "q1" then some ⟨"q1", "What is the capital of France?", "Paris", "FA"⟩ else none

/-! Helper lemmas shared by the claim theorems. -/

/-- Unfolding lemma: the `grade` method is the bind of `turing_question`
with the SDK grading call. -/
theorem QuizQuestion.grade_unfold (sdk : GradeOracle) (q : QuizQuestion) (a : String) :
    QuizQuestion.grade sdk q a = (q.turing_question).bind (fun saq => sdk saq a) := by
  unfold QuizQuestion.grade
  cases q.turing_question with
  | error e => rfl
  | ok saq =>
    show Except.bind (sdk saq a) (fun fs => Except.pure (fs.1, fs.2)) = sdk saq a
    cases sdk saq a with
    | error e => rfl
    | ok fs => rfl

/-- The classification tag is untouched by `add_criteria`. -/
theorem Rubric.add_criteria_rubric_type (r : Rubric) (o : Objective) (w : ℚ) :
    (r.add_criteria o w).rubric_type = r.rubric_type := by
  unfold Rubric.add_criteria
  split <;> rfl

/-- The `from_dict` recursion preserves the classification tag of the
accumulating rubric. -/
theorem Rubric.from_dict_aux_rubric_type (d : List (String × ℚ)) :
    ∀ r0 r : Rubric, Rubric.from_dict_aux d r0 = some r → r.rubric_type = r0.rubric_type := by
  induction d with
  | nil =>
    intro r0 r h
    injection h with h
    rw [← h]
  | cons kw rest ih =>
    intro r0 r h
    unfold Rubric.from_dict_aux at h
    cases hq : Objective.ofName kw.1 with
    | none => rw [hq] at h; cases h
    | some o =>
      rw [hq] at h
      rw [ih _ _ h, Rubric.add_criteria_rubric_type]

/-- Folding `add_criteria` over any list of objective/weight pairs
preserves the classification tag. -/
theorem Rubric.foldl_add_criteria_rubric_type (l : List (Objective × ℚ)) :
    ∀ r0 : Rubric,
      (l.foldl (fun acc p => acc.add_criteria p.1 p.2) r0).rubric_type = r0.rubric_type := by
  induction l with
  | nil => intro r0; rfl
  | cons p rest ih =>
    intro r0
    simp only [List.foldl]
    rw [ih, Rubric.add_criteria_rubric_type]

/-- Adding a criteria for an objective that is not yet a key grows the
criteria dictionary by exactly one entry. -/
theorem Rubric.add_criteria_size_of_not_mem (r : Rubric) (o : Objective) (w : ℚ)
    (h : o ∉ r.criteria.map Prod.fst) :
    (r.add_criteria o w).size = r.size + 1 := by
  unfold Rubric.add_criteria Rubric.size
  rw [if_neg]
  · simp
  · intro hc
    exact h (List.mem_of_elem_eq_true hc)

/-! Claim theorems. -/

/-- C1: for every grading oracle, every `QuizQuestion` record and every
answer string, the model's `grade` method returns exactly the
feedback/score pair produced by evaluating `turing_question` and calling
the SDK's `grade` on it — values and exceptions alike, unchanged. -/
theorem quizQuestion_grade_forwards_sdk_result (sdk : GradeOracle) (q : QuizQuestion)
    (a : String) :
    QuizQuestion.grade sdk q a = (q.turing_question).bind (fun saq => sdk saq a) :=
  QuizQuestion.grade_unfold sdk q a

/-- C2: evaluation of the two derived properties on the stored
`question_type` values: a "FA" record yields `RubricType.FACTUAL` and the
corresponding `from_rubric_type` question, but an "OP" record raises
`AttributeError("OPINION")` — the match refers to the undefined class
attribute `OPINION` where `OPTION` was defined — instead of mapping to
`RubricType.COMMUNICATION_RUBRIC` as the repaired dispatch does. -/
theorem quizQuestion_rubric_type_on_stored_types :
    QuizQuestion.rubric_type ⟨"id1", "Q", "A", "FA"⟩ = .ok RubricType.FACTUAL
    ∧ QuizQuestion.turing_question ⟨"id1", "Q", "A", "FA"⟩
        = .ok (ShortAnswerQuestion.from_rubric_type "Q" "A" RubricType.FACTUAL)
    ∧ QuizQuestion.rubric_type ⟨"id2", "Q", "A", "OP"⟩
        = .error (PyErr.AttributeError "OPINION")
    ∧ QuizQuestion.rubric_type_intended ⟨"id2", "Q", "A", "OP"⟩
        = RubricType.COMMUNICATION_RUBRIC :=
  ⟨rfl, rfl, rfl, rfl⟩

/-- C3: the `rubric_type` attribute records how a rubric was built: a
preset-built rubric carries its preset type, the empty rubric and the
default `from_dict` rubric are classified `CUSTOM`, and neither
`add_criteria` nor `set_rubric` changes the classification of the rubric
involved. -/
theorem rubric_type_classifies_construction :
    (∀ t : RubricType, (Rubric.from_rubric_type t).rubric_type = t)
    ∧ Rubric.empty.rubric_type = RubricType.CUSTOM
    ∧ (∀ (r : Rubric) (o : Objective) (w : ℚ),
        (r.add_criteria o w).rubric_type = r.rubric_type)
    ∧ (∀ (q : ShortAnswerQuestion) (r : Rubric), (q.set_rubric r).rubric = r)
    ∧ (∀ (d : List (String × ℚ)) (r : Rubric),
        Rubric.from_dict d = some r → r.rubric_type = RubricType.CUSTOM) := by
  refine ⟨fun t => rfl, rfl, Rubric.add_criteria_rubric_type, fun q r => rfl, ?_⟩
  intro d r h
  exact Rubric.from_dict_aux_rubric_type d Rubric.empty r h

/-- Witness for C3 at a concrete payload: the one-entry payload parses,
and the resulting rubric is classified `CUSTOM`. -/
theorem rubric_type_classifies_construction_witness :
    Rubric.from_dict [("use of evidence", 1)]
      = some ⟨[(Objective.EVIDENCE, 1)], RubricType.CUSTOM⟩
    ∧ Rubric.rubric_type ⟨[(Objective.EVIDENCE, 1)], RubricType.CUSTOM⟩
      = RubricType.CUSTOM :=
  ⟨rfl, rubric_type_classifies_construction.2.2.2.2 [("use of evidence", 1)]
    ⟨[(Objective.EVIDENCE, 1)], RubricType.CUSTOM⟩ rfl⟩

/-- C4: evaluation of the view on a concrete POST request that carries an
"answer" parameter and a stored question id: the view as written raises
`NameError("Question")` at its first statement — the fetch refers to the
name `Question` while the defined model is `QuizQuestion` — whereas the
handler with the name slip repaired returns status 200 with the feedback
and score returned by the grading method. -/
theorem grade_short_answer_view_on_concrete_request :
    grade_short_answer_view sdkExample dbExample [("answer", "Paris")] "q1"
      = .error (PyErr.NameError "Question")
    ∧ grade_short_answer_view_intended sdkExample dbExample [("answer", "Paris")] "q1"
      = .ok ⟨[("feedback", Val.str "Correct."), ("score", Val.num 1)], 200⟩ :=
  ⟨rfl, rfl⟩

/-- C5: totality of the enum-driven dispatches: the tag dispatch
`CustomRubric.map_tag_to_objective` yields a defined outcome (an
objective, or the wildcard's `ValueError`) for every tag string, but the
`rubric_type` dispatch does not yield a `RubricType` for every
`question_type` string — on "AN" it raises `AttributeError("OPINION")`
at the second case, before its wildcard is ever reached. -/
theorem dispatch_totality_on_inputs :
    QuizQuestion.rubric_type ⟨"id3", "Q", "A", "AN"⟩
      = .error (PyErr.AttributeError "OPINION")
    ∧ (∀ tag : String,
        (∃ o : Objective, CustomRubric.map_tag_to_objective tag = .ok o)
        ∨ CustomRubric.map_tag_to_objective tag
            = .error (PyErr.ValueError "Invalid Tag!")) := by
  refine ⟨rfl, ?_⟩
  intro tag
  unfold CustomRubric.map_tag_to_objective
  split
  · exact Or.inl ⟨Objective.ANALYSIS, rfl⟩
  · exact Or.inl ⟨Objective.EVIDENCE, rfl⟩
  · exact Or.inl ⟨Objective.FACTUAL, rfl⟩
  · exact Or.inr rfl

/-- C6: neither shim handles failures: `grade` raises exactly when the
underlying `turing_question.grade(answer)` expression raises, propagating
the same exception unchanged, and the view maps its straight-line body's
exceptions through unchanged — it catches nothing and introduces no error
branch of its own. -/
theorem forwarding_shims_propagate_errors (sdk : GradeOracle) (q : QuizQuestion) (a : String)
    (db : String → Option QuizQuestion) (post : List (String × String)) (qid : String)
    (e : PyErr) :
    (QuizQuestion.grade sdk q a = .error e
      ↔ (q.turing_question).bind (fun saq => sdk saq a) = .error e)
    ∧ (grade_short_answer_view sdk db post qid = .error e
      ↔ view_core sdk db post qid = .error e) := by
  constructor
  · rw [QuizQuestion.grade_unfold]
  · unfold grade_short_answer_view
    cases view_core sdk db post qid with
    | error e2 => simp [Except.map]
    | ok fs => simp [Except.map]

/-- C7 counterexample: the repository does define an operation whose
result is a deterministic function of its explicit input alone —
`CustomRubric.map_tag_to_objective` takes no grading oracle and yields,
on the concrete inputs "analytical" and "geography", a fixed objective
and the fixed wildcard `ValueError` respectively. -/
theorem map_tag_to_objective_self_contained_on_inputs :
    CustomRubric.map_tag_to_objective "analytical" = .ok Objective.ANALYSIS
    ∧ CustomRubric.map_tag_to_objective "geography"
        = .error (PyErr.ValueError "Invalid Tag!") :=
  ⟨rfl, rfl⟩

/-- C7 amended: while the grading operations depend on the external SDK
oracle, the repository's tag dispatch is deterministic and
self-contained: on every tag string, `CustomRubric.map_tag_to_objective`
computes exactly the result of a fixed pure lookup table, with the
wildcard `ValueError` for absent keys. -/
theorem map_tag_to_objective_is_pure_lookup_table (tag : String) :
    CustomRubric.map_tag_to_objective tag =
      (match tagObjectiveTable.lookup tag with
       | some o => Except.ok o
       | none => Except.error (PyErr.ValueError "Invalid Tag!")) := by
  unfold CustomRubric.map_tag_to_objective
  split
  next => rfl
  next => rfl
  next => rfl
  next h1 h2 h3 =>
    have b1 : (tag == "analytical") = false := beq_eq_false_iff_ne.mpr h1
    have b2 : (tag == "evidence") = false := beq_eq_false_iff_ne.mpr h2
    have b3 : (tag == "accuracy") = false := beq_eq_false_iff_ne.mpr h3
    simp [tagObjectiveTable, List.lookup, b1, b2, b3]

/-- C8: constructing a `ShortAnswerQuestion` through `from_rubric_type`
produces the same question object as building the preset rubric with
`Rubric.from_rubric_type` and passing it to the constructor; in
particular the two rubrics agree on `rubric_type` and `size`. -/
theorem from_rubric_type_agrees_with_explicit_rubric (q a : String) (t : RubricType) :
    ShortAnswerQuestion.from_rubric_type q a t
      = ShortAnswerQuestion.make q a (some (Rubric.from_rubric_type t))
    ∧ (ShortAnswerQuestion.from_rubric_type q a t).rubric.rubric_type
      = (ShortAnswerQuestion.make q a (some (Rubric.from_rubric_type t))).rubric.rubric_type
    ∧ (ShortAnswerQuestion.from_rubric_type q a t).rubric.size
      = (ShortAnswerQuestion.make q a (some (Rubric.from_rubric_type t))).rubric.size :=
  ⟨rfl, rfl, rfl⟩

/-- C9: a `ShortAnswerQuestion` constructed without a rubric argument
carries the default empty rubric — classification `CUSTOM` and size 0 —
rather than no rubric attribute. -/
theorem default_rubric_is_empty_custom (q a : String) :
    (ShortAnswerQuestion.make q a none).rubric.rubric_type = RubricType.CUSTOM
    ∧ (ShortAnswerQuestion.make q a none).rubric.size = 0 :=
  ⟨rfl, rfl⟩

/-- C10: frame properties of `add_criteria`: adding a criteria for an
objective not yet present grows the rubric's size by exactly one and
leaves its classification unchanged — both on a rubric directly and
through the question-level wrapper — and any sequence of `add_criteria`
calls preserves the classification, so a `CUSTOM` rubric stays `CUSTOM`. -/
theorem add_criteria_frame_properties (r : Rubric) (o : Objective) (w : ℚ)
    (h : o ∉ r.criteria.map Prod.fst) :
    ((r.add_criteria o w).size = r.size + 1
      ∧ (r.add_criteria o w).rubric_type = r.rubric_type
      ∧ ∀ saq : ShortAnswerQuestion, saq.rubric = r →
          (saq.add_criteria o w).rubric.size = saq.rubric.size + 1
          ∧ (saq.add_criteria o w).rubric.rubric_type = saq.rubric.rubric_type)
    ∧ ∀ (l : List (Objective × ℚ)) (r0 : Rubric),
        (l.foldl (fun acc p => acc.add_criteria p.1 p.2) r0).rubric_type
          = r0.rubric_type := by
  refine ⟨⟨Rubric.add_criteria_size_of_not_mem r o w h,
    Rubric.add_criteria_rubric_type r o w, ?_⟩,
    fun l r0 => Rubric.foldl_add_criteria_rubric_type l r0⟩
  intro saq hres
  constructor
  · show (saq.rubric.add_criteria o w).size = saq.rubric.size + 1
    rw [hres]
    exact Rubric.add_criteria_size_of_not_mem r o w h
  · show (saq.rubric.add_criteria o w).rubric_type = saq.rubric.rubric_type
    exact Rubric.add_criteria_rubric_type _ o w

/-- Witness for C10 at a concrete input: `FACTUAL` is not a key of the
empty rubric, and adding it with weight 3/2 yields size one. -/
theorem add_criteria_frame_properties_witness :
    Objective.FACTUAL ∉ (Rubric.empty).criteria.map Prod.fst
    ∧ ((Rubric.empty).add_criteria Objective.FACTUAL (3/2)).size
        = Rubric.empty.size + 1 :=
  ⟨by decide,
    (add_criteria_frame_properties Rubric.empty Objective.FACTUAL (3/2) (by decide)).1.1⟩
